import Mathlib

/-!
Verification of the statistics delta-computation engine of the gstat-rs
repository (crate freebsd-libgeom, file src/lib.rs).

Modelling conventions:
* Machine integers (u32, u64, i64) are modelled as `Nat` / `Int`; the
  arithmetic of the source is compiled in release mode, so unsigned
  subtraction and addition wrap modulo 2^w and signed arithmetic wraps in
  two's complement; the wrapping is written explicitly with `% 2^w`.
* `f64` values are modelled by `F64`: an exact rational together with the
  IEEE special values +inf, -inf and NaN.  Arithmetic on finite values is
  idealized as exact rational arithmetic; the special values follow IEEE 754
  (and Rust's `f64::max` semantics, which returns the non-NaN operand).
  Every concrete value appearing in the claims is a dyadic rational whose
  computation is exact in binary64, so the idealization is faithful there.
* `struct devstat` comes from the FreeBSD system headers through the
  freebsd-libgeom-sys bindgen crate; its fields and the
  `devstat_trans_flags` indices are reproduced from those headers
  (DEVSTAT_NO_DATA = 0, DEVSTAT_READ = 1, DEVSTAT_WRITE = 2,
  DEVSTAT_FREE = 3), matching the counter-record description of the spec.
-/

namespace GStat

/-- Model of Rust `f64`: an exact rational, or one of the IEEE special
values. -/
inductive F64 where
  | fin : ℚ → F64
  | inf : F64
  | neginf : F64
  | nan : F64
deriving DecidableEq

/-- IEEE `>` comparison: NaN compares false against everything. -/
def F64.gt : F64 → F64 → Bool
  | .nan, _ => false
  | _, .nan => false
  | .inf, .inf => false
  | .inf, _ => true
  | .fin _, .inf => false
  | .fin a, .fin b => decide (b < a)
  | .fin _, .neginf => true
  | .neginf, _ => false

/-- IEEE multiplication on the model (finite products are exact). -/
def F64.mul : F64 → F64 → F64
  | .nan, _ => .nan
  | _, .nan => .nan
  | .inf, .inf => .inf
  | .inf, .neginf => .neginf
  | .neginf, .inf => .neginf
  | .neginf, .neginf => .inf
  | .inf, .fin b => if b = 0 then .nan else if 0 < b then .inf else .neginf
  | .fin a, .inf => if a = 0 then .nan else if 0 < a then .inf else .neginf
  | .neginf, .fin b => if b = 0 then .nan else if 0 < b then .neginf else .inf
  | .fin a, .neginf => if a = 0 then .nan else if 0 < a then .neginf else .inf
  | .fin a, .fin b => .fin (a * b)

/-- IEEE division on the model (finite quotients are exact); division of a
nonzero finite value by zero gives a signed infinity, 0/0 gives NaN. -/
def F64.div : F64 → F64 → F64
  | .nan, _ => .nan
  | _, .nan => .nan
  | .inf, .inf => .nan
  | .inf, .neginf => .nan
  | .neginf, .inf => .nan
  | .neginf, .neginf => .nan
  | .inf, .fin b => if b < 0 then .neginf else .inf
  | .neginf, .fin b => if b < 0 then .inf else .neginf
  | .fin _, .inf => .fin 0
  | .fin _, .neginf => .fin 0
  | .fin a, .fin b =>
      if b = 0 then (if a = 0 then .nan else if 0 < a then .inf else .neginf)
      else .fin (a / b)

/-- Rust `f64::max`: if one operand is NaN the other is returned. -/
def F64.max : F64 → F64 → F64
  | .nan, b => b
  | a, .nan => a
  | .inf, _ => .inf
  | _, .inf => .inf
  | .neginf, b => b
  | a, .neginf => a
  | .fin a, .fin b => .fin (if a ≤ b then b else a)

/-- Modulus of u64 arithmetic. -/
def U64 : Nat := 2 ^ 64

/-- Modulus of u32 arithmetic. -/
def U32 : Nat := 2 ^ 32

/-- Wrapping u64 subtraction (release-mode `new - old`, and the value part
of `overflowing_sub`): correct two's complement wrap for operands below
2^64. -/
def wsub64 (a b : Nat) : Nat := (a + U64 - b) % U64

/-- Wrapping u32 subtraction (release-mode `start_count - end_count`). -/
def wsub32 (a b : Nat) : Nat := (a + U32 - b) % U32

/-- Two's complement wrap of an i64 computation. -/
def iwrap64 (x : Int) : Int := (x + 2 ^ 63) % 2 ^ 64 - 2 ^ 63

/-- `BINTIME_SCALE` from src/lib.rs: the f64 literal
5.421010862427522e-20 is exactly 2^-64. -/
def BINTIME_SCALE : ℚ := 1 / 2 ^ 64

/-- FreeBSD `struct bintime`: 64.64 fixed-point time, `sec` an i64 and
`frac` a u64 (to be interpreted modulo 2^64). -/
structure bintime where
  sec : Int
  frac : Nat
deriving DecidableEq

/-- The four `devstat_trans_flags` indices (FreeBSD devicestat.h). -/
def DEVSTAT_NO_DATA : Fin 4 := 0

/-- Index of read transactions in the per-class arrays. -/
def DEVSTAT_READ : Fin 4 := 1

/-- Index of write transactions in the per-class arrays. -/
def DEVSTAT_WRITE : Fin 4 := 2

/-- Index of free (TRIM) transactions in the per-class arrays. -/
def DEVSTAT_FREE : Fin 4 := 3

/-- FreeBSD `struct devstat`, restricted to the fields the engine reads:
per-class operation counts, byte counts and cumulative durations (arrays
indexed by `devstat_trans_flags`), the cumulative busy time, the start/end
transaction counts (u32), and the block size (u32, 0 meaning unknown). -/
structure devstat where
  operations : Fin 4 → Nat
  bytes : Fin 4 → Nat
  duration : Fin 4 → bintime
  busy_time : bintime
  start_count : Nat
  end_count : Nat
  block_size : Nat

/-- The `delta!` macro of src/lib.rs: the wrapping difference between the
current value of a per-class counter and the previous one (0 when there is
no previous record). -/
def delta (current : devstat) (previous : Option devstat)
    (field : devstat → Fin 4 → Nat) (idx : Fin 4) : Nat :=
  let old : Nat := match previous with
    | some prev => field prev idx
    | none => 0
  let new : Nat := field current idx
  wsub64 new old

/-- The core of the `delta_t!` macro of src/lib.rs: subtract two bintimes
with a borrow when the fraction subtraction overflows, then convert to f64
(here: to an exact rational, since every step of the conversion is a finite
float operation). -/
def delta_t_bt (new old : bintime) : ℚ :=
  let dsec : Int := iwrap64 (new.sec - old.sec)
  let dfrac : Nat := wsub64 new.frac old.frac
  let overflow : Bool := decide (new.frac < old.frac)
  let dsec2 : Int := if overflow then iwrap64 (dsec - 1) else dsec
  (dsec2 : ℚ) + (dfrac : ℚ) * BINTIME_SCALE

/-- The `delta_t!` macro applied to an optional previous record: the
previous bintime defaults to `{sec: 0, frac: 0}`. -/
def delta_t (current : devstat) (previous : Option devstat)
    (field : devstat → bintime) : ℚ :=
  let old : bintime := match previous with
    | some prev => field prev
    | none => ⟨0, 0⟩
  delta_t_bt (field current) old

/-- Output of `Statistics::compute` (struct `Statistics` of src/lib.rs):
the stored inputs plus every accumulated total. -/
structure Statistics where
  current : devstat
  previous : Option devstat
  etime : F64
  total_bytes : Nat
  total_bytes_free : Nat
  total_bytes_read : Nat
  total_bytes_write : Nat
  total_blocks : Nat
  total_blocks_free : Nat
  total_blocks_read : Nat
  total_blocks_write : Nat
  total_duration : ℚ
  total_duration_free : ℚ
  total_duration_other : ℚ
  total_duration_read : ℚ
  total_duration_write : ℚ
  total_transfers : Nat
  total_transfers_free : Nat
  total_transfers_other : Nat
  total_transfers_read : Nat
  total_transfers_write : Nat

/-- `Statistics::compute` of src/lib.rs.  Chained u64 additions wrap modulo
2^64 (release mode); writing the whole sum modulo 2^64 once is equal to
wrapping after each addition. -/
def Statistics.compute (current : devstat) (previous : Option devstat)
    (etime : F64) : Statistics :=
  let total_transfers_read := delta current previous devstat.operations DEVSTAT_READ
  let total_transfers_write := delta current previous devstat.operations DEVSTAT_WRITE
  let total_transfers_other := delta current previous devstat.operations DEVSTAT_NO_DATA
  let total_transfers_free := delta current previous devstat.operations DEVSTAT_FREE
  let total_transfers := (total_transfers_read + total_transfers_write
    + total_transfers_other + total_transfers_free) % U64
  let total_bytes_free := delta current previous devstat.bytes DEVSTAT_FREE
  let total_bytes_read := delta current previous devstat.bytes DEVSTAT_READ
  let total_bytes_write := delta current previous devstat.bytes DEVSTAT_WRITE
  let total_bytes := (total_bytes_read + total_bytes_write + total_bytes_free) % U64
  let block_denominator : Nat :=
    if current.block_size > 0 then current.block_size else 512
  let total_blocks := total_bytes / block_denominator
  let total_blocks_free := total_bytes_free / block_denominator
  let total_blocks_read := total_bytes_read / block_denominator
  let total_blocks_write := total_bytes_write / block_denominator
  let total_duration_free := delta_t current previous (fun ds => ds.duration DEVSTAT_FREE)
  let total_duration_read := delta_t current previous (fun ds => ds.duration DEVSTAT_READ)
  let total_duration_write := delta_t current previous (fun ds => ds.duration DEVSTAT_WRITE)
  let total_duration_other := delta_t current previous (fun ds => ds.duration DEVSTAT_NO_DATA)
  let total_duration := total_duration_read + total_duration_write
    + total_duration_other + total_duration_free
  { current, previous, etime,
    total_bytes, total_bytes_free, total_bytes_read, total_bytes_write,
    total_blocks, total_blocks_free, total_blocks_read, total_blocks_write,
    total_duration, total_duration_free, total_duration_other,
    total_duration_read, total_duration_write,
    total_transfers, total_transfers_free, total_transfers_other,
    total_transfers_read, total_transfers_write }

/-- The `fields_per_sec!` macro: a count divided by the elapsed time,
guarded to 0.0 when the elapsed time is not positive. -/
def per_sec (etime : F64) (field : Nat) : F64 :=
  if F64.gt etime (F64.fin 0) then F64.div (F64.fin field) etime else F64.fin 0

/-- The `mb_per_sec!` macro: bytes over 2^20 over elapsed time, with the
same elapsed-time guard. -/
def mb_per_sec_fn (etime : F64) (field : Nat) : F64 :=
  if F64.gt etime (F64.fin 0)
  then F64.div (F64.div (F64.fin field) (F64.fin 1048576)) etime
  else F64.fin 0

/-- The `kb_per_xfer!` macro: bytes over 2^10 over transfers, guarded to
0.0 when the transfer count is zero. -/
def kb_per_xfer_fn (xfers : Nat) (bytes : Nat) : F64 :=
  if xfers > 0
  then F64.div (F64.div (F64.fin bytes) (F64.fin 1024)) (F64.fin xfers)
  else F64.fin 0

/-- The `ms_per_xfer!` macro: duration times 1000 over transfers, guarded
to 0.0 when the transfer count is zero. -/
def ms_per_xfer_fn (xfers : Nat) (duration : ℚ) : F64 :=
  if xfers > 0
  then F64.div (F64.mul (F64.fin duration) (F64.fin 1000)) (F64.fin xfers)
  else F64.fin 0

def Statistics.blocks_per_second (s : Statistics) : F64 :=
  per_sec s.etime s.total_blocks

def Statistics.blocks_per_second_free (s : Statistics) : F64 :=
  per_sec s.etime s.total_blocks_free

def Statistics.blocks_per_second_read (s : Statistics) : F64 :=
  per_sec s.etime s.total_blocks_read

def Statistics.blocks_per_second_write (s : Statistics) : F64 :=
  per_sec s.etime s.total_blocks_write

/-- `kb_per_transfer`: aggregate bytes over aggregate transfers. -/
def Statistics.kb_per_transfer (s : Statistics) : F64 :=
  kb_per_xfer_fn s.total_transfers s.total_bytes

/-- `kb_per_transfer_free` as written in src/lib.rs line 413: the numerator
is the aggregate `total_bytes`, not `total_bytes_free`. -/
def Statistics.kb_per_transfer_free (s : Statistics) : F64 :=
  kb_per_xfer_fn s.total_transfers_free s.total_bytes

/-- `kb_per_transfer_read` as written in src/lib.rs line 415: the numerator
is the aggregate `total_bytes`, not `total_bytes_read`. -/
def Statistics.kb_per_transfer_read (s : Statistics) : F64 :=
  kb_per_xfer_fn s.total_transfers_read s.total_bytes

/-- `kb_per_transfer_write` as written in src/lib.rs line 417: the
numerator is the aggregate `total_bytes`, not `total_bytes_write`. -/
def Statistics.kb_per_transfer_write (s : Statistics) : F64 :=
  kb_per_xfer_fn s.total_transfers_write s.total_bytes

def Statistics.ms_per_transaction (s : Statistics) : F64 :=
  ms_per_xfer_fn s.total_transfers s.total_duration

def Statistics.ms_per_transaction_free (s : Statistics) : F64 :=
  ms_per_xfer_fn s.total_transfers_free s.total_duration_free

def Statistics.ms_per_transaction_read (s : Statistics) : F64 :=
  ms_per_xfer_fn s.total_transfers_read s.total_duration_read

def Statistics.ms_per_transaction_other (s : Statistics) : F64 :=
  ms_per_xfer_fn s.total_transfers_other s.total_duration_other

def Statistics.ms_per_transaction_write (s : Statistics) : F64 :=
  ms_per_xfer_fn s.total_transfers_write s.total_duration_write

def Statistics.mb_per_second (s : Statistics) : F64 :=
  mb_per_sec_fn s.etime s.total_bytes

def Statistics.mb_per_second_free (s : Statistics) : F64 :=
  mb_per_sec_fn s.etime s.total_bytes_free

def Statistics.mb_per_second_read (s : Statistics) : F64 :=
  mb_per_sec_fn s.etime s.total_bytes_read

def Statistics.mb_per_second_write (s : Statistics) : F64 :=
  mb_per_sec_fn s.etime s.total_bytes_write

def Statistics.transfers_per_second (s : Statistics) : F64 :=
  per_sec s.etime s.total_transfers

def Statistics.transfers_per_second_free (s : Statistics) : F64 :=
  per_sec s.etime s.total_transfers_free

def Statistics.transfers_per_second_other (s : Statistics) : F64 :=
  per_sec s.etime s.total_transfers_other

def Statistics.transfers_per_second_read (s : Statistics) : F64 :=
  per_sec s.etime s.total_transfers_read

def Statistics.transfers_per_second_write (s : Statistics) : F64 :=
  per_sec s.etime s.total_transfers_write

/-- `Statistics::busy_time`: the absolute busy time of the current record
converted to f64 seconds. -/
def Statistics.busy_time_f (s : Statistics) : F64 :=
  F64.fin ((s.current.busy_time.sec : ℚ) + (s.current.busy_time.frac : ℚ) * BINTIME_SCALE)

/-- `Statistics::busy_pct` of src/lib.rs: `(delta / etime * 100.0).max(0.0)`
with NO guard on `etime`. -/
def Statistics.busy_pct (s : Statistics) : F64 :=
  let d : ℚ := delta_t s.current s.previous devstat.busy_time
  F64.max (F64.mul (F64.div (F64.fin d) s.etime) (F64.fin 100)) (F64.fin 0)

/-- `Statistics::queue_length`: wrapping u32 subtraction of the current
record's start and end transaction counts. -/
def Statistics.queue_length (s : Statistics) : Nat :=
  wsub32 s.current.start_count s.current.end_count

/-- Modelled from the spec: the external snapshot cursor behind
`geom_stats_snapshot_next` (the function lives in FreeBSD's libgeom, not
under src/).  A snapshot holds the finite ordered sequence of records of
one acquisition; each call yields the next record and advances the cursor,
and yields nothing once exhausted. -/
structure SnapState where
  remaining : List devstat

/-- One call of the snapshot cursor. -/
def snapshot_next (s : SnapState) : Option devstat × SnapState :=
  match s.remaining with
  | [] => (none, s)
  | d :: rest => (some d, ⟨rest⟩)

/-- `SnapshotPairIter` of src/lib.rs: a current snapshot and an optional
previous snapshot iterated in lockstep. -/
structure SnapshotPairIter where
  cur : SnapState
  prev : Option SnapState

/-- `SnapshotPairIter::next` of src/lib.rs: first advance the previous
snapshot's cursor (when present), then advance the current one; an item is
produced exactly when the current snapshot yields a record. -/
def SnapshotPairIter.next (it : SnapshotPairIter) :
    Option (devstat × Option devstat) × SnapshotPairIter :=
  let psp : Option devstat × Option SnapState :=
    match it.prev with
    | some prev => ((snapshot_next prev).1, some (snapshot_next prev).2)
    | none => (none, none)
  let cs := snapshot_next it.cur
  match cs.1 with
  | some c => (some (c, psp.1), ⟨cs.2, psp.2⟩)
  | none => (none, ⟨cs.2, psp.2⟩)

/-- The iterator state after `k` calls to `next`. -/
def SnapshotPairIter.after (it : SnapshotPairIter) : Nat → SnapshotPairIter
  | 0 => it
  | k + 1 => (it.next.2).after k

/-- The k-th item produced by the pair iterator (0-based). -/
def SnapshotPairIter.nth (it : SnapshotPairIter) (k : Nat) :
    Option (devstat × Option devstat) :=
  ((it.after k).next).1

/-- Range invariant of a bintime taken from the kernel: `sec` fits in i64
and `frac` in u64. -/
def bintime.wf (t : bintime) : Prop :=
  -(2 ^ 63) ≤ t.sec ∧ t.sec < 2 ^ 63 ∧ t.frac < U64

/-- Range invariant of a devstat record: every counter fits in its machine
width. -/
def devstat.wf (d : devstat) : Prop :=
  (∀ i, d.operations i < U64) ∧ (∀ i, d.bytes i < U64)
  ∧ (∀ i, (d.duration i).wf) ∧ d.busy_time.wf
  ∧ d.start_count < U32 ∧ d.end_count < U32 ∧ d.block_size < U32

/-- Well-typedness of the engine output: every accumulated total fits in
u64 and the queue length fits in u32. -/
def Statistics.wf (s : Statistics) : Prop :=
  s.total_bytes < U64 ∧ s.total_bytes_free < U64 ∧ s.total_bytes_read < U64
  ∧ s.total_bytes_write < U64 ∧ s.total_blocks < U64 ∧ s.total_blocks_free < U64
  ∧ s.total_blocks_read < U64 ∧ s.total_blocks_write < U64
  ∧ s.total_transfers < U64 ∧ s.total_transfers_free < U64
  ∧ s.total_transfers_other < U64 ∧ s.total_transfers_read < U64
  ∧ s.total_transfers_write < U64 ∧ s.queue_length < U32

/-- All-zero counter record (start/end counts and block size also zero). -/
def zeroed_record : devstat :=
  ⟨fun _ => 0, fun _ => 0, fun _ => ⟨0, 0⟩, ⟨0, 0⟩, 0, 0, 0⟩

/-- A record whose only nonzero counter is one second of busy time. -/
def cBusy : devstat :=
  ⟨fun _ => 0, fun _ => 0, fun _ => ⟨0, 0⟩, ⟨1, 0⟩, 0, 0, 0⟩

/-- A record with one read transfer of 1024 bytes plus 1024 written bytes. -/
def cMixed : devstat :=
  ⟨fun i => if i = DEVSTAT_READ then 1 else 0,
   fun i => if i = DEVSTAT_READ then 1024 else if i = DEVSTAT_WRITE then 1024 else 0,
   fun _ => ⟨0, 0⟩, ⟨0, 0⟩, 0, 0, 0⟩

/-- A record whose only nonzero counter is 7 bytes in the NO_DATA class. -/
def cNoData : devstat :=
  ⟨fun _ => 0, fun i => if i = DEVSTAT_NO_DATA then 7 else 0,
   fun _ => ⟨0, 0⟩, ⟨0, 0⟩, 0, 0, 0⟩

/-- Current record of the end-to-end scenario: Read class
{count 1000, bytes 4096000, duration 2s}. -/
def cEnd : devstat :=
  ⟨fun i => if i = DEVSTAT_READ then 1000 else 0,
   fun i => if i = DEVSTAT_READ then 4096000 else 0,
   fun i => if i = DEVSTAT_READ then ⟨2, 0⟩ else ⟨0, 0⟩, ⟨0, 0⟩, 0, 0, 0⟩

/-- Previous record of the end-to-end scenario: Read class
{count 500, bytes 2048000, duration 1s}. -/
def pEnd : devstat :=
  ⟨fun i => if i = DEVSTAT_READ then 500 else 0,
   fun i => if i = DEVSTAT_READ then 2048000 else 0,
   fun i => if i = DEVSTAT_READ then ⟨1, 0⟩ else ⟨0, 0⟩, ⟨0, 0⟩, 0, 0, 0⟩

/-- A record with 5 read operations. -/
def cSmall : devstat :=
  ⟨fun i => if i = DEVSTAT_READ then 5 else 0, fun _ => 0,
   fun _ => ⟨0, 0⟩, ⟨0, 0⟩, 0, 0, 0⟩

/-- A mispaired previous record with 10 read operations (more than
`cSmall`). -/
def pBig : devstat :=
  ⟨fun i => if i = DEVSTAT_READ then 10 else 0, fun _ => 0,
   fun _ => ⟨0, 0⟩, ⟨0, 0⟩, 0, 0, 0⟩

/-- A record with 1 started and 3 completed transactions. -/
def cQueue : devstat :=
  ⟨fun _ => 0, fun _ => 0, fun _ => ⟨0, 0⟩, ⟨0, 0⟩, 1, 3, 0⟩

/-- A record with 256 read bytes and 256 written bytes (each below one
512-byte block). -/
def cBlocks : devstat :=
  ⟨fun _ => 0,
   fun i => if i = DEVSTAT_READ then 256 else if i = DEVSTAT_WRITE then 256 else 0,
   fun _ => ⟨0, 0⟩, ⟨0, 0⟩, 0, 0, 0⟩

/-- Claim C1: with `elapsed_seconds = 0.0` the guarded rate and throughput
accessors do return 0.0, but `busy_pct` has no elapsed-time guard in the
source: with a positive busy-time delta it evaluates `delta / 0.0 * 100.0 =
+inf`, and `max(+inf, 0.0) = +inf`, so the engine returns +Infinity, not
the 0.0 the claim requires. -/
theorem busy_pct_inf_at_zero_etime :
    (Statistics.compute cBusy none (F64.fin 0)).busy_pct = F64.inf
    ∧ (Statistics.compute cBusy none (F64.fin 0)).transfers_per_second = F64.fin 0
    ∧ (Statistics.compute cBusy none (F64.fin 0)).mb_per_second = F64.fin 0
    ∧ (Statistics.compute cBusy none (F64.fin 0)).blocks_per_second = F64.fin 0
    ∧ (Statistics.compute cBusy none (F64.fin 0)).busy_pct ≠ F64.fin 0 := by
  have hd : delta_t cBusy none devstat.busy_time = 1 := by
    norm_num [delta_t, delta_t_bt, cBusy, iwrap64, wsub64, U64, BINTIME_SCALE]
  have hb : (Statistics.compute cBusy none (F64.fin 0)).busy_pct = F64.inf := by
    show F64.max (F64.mul (F64.div (F64.fin (delta_t cBusy none devstat.busy_time))
      (F64.fin 0)) (F64.fin 100)) (F64.fin 0) = F64.inf
    rw [hd]
    norm_num [F64.div, F64.mul, F64.max]
  refine ⟨hb, rfl, rfl, rfl, ?_⟩
  rw [hb]
  simp

/-- Claim C2: `kb_per_transfer_read` divides the AGGREGATE byte delta
`total_bytes` by the read transfer count, not the read byte delta: on a
record with 1024 read bytes, 1024 written bytes and one read transfer it
returns 2.0 while the per-class formula of the claim gives 1.0. -/
theorem kb_per_transfer_read_uses_aggregate_bytes :
    (Statistics.compute cMixed none (F64.fin 1)).kb_per_transfer_read = F64.fin 2
    ∧ F64.fin ((delta cMixed none devstat.bytes DEVSTAT_READ : ℚ) / 1024
        / (delta cMixed none devstat.operations DEVSTAT_READ : ℚ)) = F64.fin 1
    ∧ (F64.fin 2 : F64) ≠ F64.fin 1 := by
  have h1 : (Statistics.compute cMixed none (F64.fin 1)).total_bytes = 2048 := by decide
  have h2 : (Statistics.compute cMixed none (F64.fin 1)).total_transfers_read = 1 := by decide
  have h3 : delta cMixed none devstat.bytes DEVSTAT_READ = 1024 := by decide
  have h4 : delta cMixed none devstat.operations DEVSTAT_READ = 1 := by decide
  refine ⟨?_, ?_, ?_⟩
  · show kb_per_xfer_fn (Statistics.compute cMixed none (F64.fin 1)).total_transfers_read
      (Statistics.compute cMixed none (F64.fin 1)).total_bytes = F64.fin 2
    rw [h1, h2]
    norm_num [kb_per_xfer_fn, F64.div]
  · rw [h3, h4]
    norm_num
  · simp

/-- Claim C3: the fixed-point subtraction borrows exactly one second when
the subtrahend's fraction exceeds the minuend's, the fraction difference
wrapping modulo 2^64, and the converted result is
`(a.sec - b.sec - borrow) + wrapped_fraction * 2^-64` (stated for every
pair of bintimes whose fields are in machine range and whose second
difference does not overflow i64, which holds for all kernel times). -/
theorem delta_t_borrow_correct (a b : bintime)
    (ha : a.frac < U64) (hb : b.frac < U64)
    (hlo : -(2 ^ 63) ≤ a.sec - b.sec - (if a.frac < b.frac then 1 else 0))
    (hhi : a.sec - b.sec - (if a.frac < b.frac then 1 else 0) < 2 ^ 63) :
    delta_t_bt a b
      = ((a.sec - b.sec - (if a.frac < b.frac then 1 else 0) : Int) : ℚ)
        + (wsub64 a.frac b.frac : ℚ) * BINTIME_SCALE := by
  have hsec : (if decide (a.frac < b.frac) = true
        then iwrap64 (iwrap64 (a.sec - b.sec) - 1)
        else iwrap64 (a.sec - b.sec))
      = a.sec - b.sec - (if a.frac < b.frac then 1 else 0) := by
    by_cases hf : a.frac < b.frac
    · rw [if_pos hf] at hlo hhi
      rw [if_pos (decide_eq_true hf), if_pos hf]
      unfold iwrap64
      omega
    · rw [if_neg hf] at hlo hhi
      rw [if_neg (fun h => hf (of_decide_eq_true h)), if_neg hf]
      unfold iwrap64
      omega
  have hgoal : delta_t_bt a b
      = ((if decide (a.frac < b.frac) = true
          then iwrap64 (iwrap64 (a.sec - b.sec) - 1)
          else iwrap64 (a.sec - b.sec) : Int) : ℚ)
        + (wsub64 a.frac b.frac : ℚ) * BINTIME_SCALE := rfl
  rw [hgoal, hsec]

/-- Witness for `delta_t_borrow_correct`: the two concrete conversions of
the claim, `{1,0} - {0,2^63} = 0.5` and `{0,0} - {1,2^62} = -1.25`. -/
theorem delta_t_borrow_correct_witness :
    delta_t_bt ⟨1, 0⟩ ⟨0, 2 ^ 63⟩ = 1 / 2
    ∧ delta_t_bt ⟨0, 0⟩ ⟨1, 2 ^ 62⟩ = -(5 / 4) := by
  constructor
  · rw [delta_t_borrow_correct ⟨1, 0⟩ ⟨0, 2 ^ 63⟩ (by norm_num [U64])
      (by norm_num [U64]) (by norm_num) (by norm_num)]
    norm_num [wsub64, U64, BINTIME_SCALE]
  · rw [delta_t_borrow_correct ⟨0, 0⟩ ⟨1, 2 ^ 62⟩ (by norm_num [U64])
      (by norm_num [U64]) (by norm_num) (by norm_num)]
    norm_num [wsub64, U64, BINTIME_SCALE]

/-- Claim C4 counterexample: `total_bytes` sums only the read, write and
free byte deltas; on a record whose NO_DATA class carries 7 bytes it is 0,
not the four-class sum 7 demanded by the claim. -/
theorem total_bytes_not_four_class_sum :
    (Statistics.compute cNoData none (F64.fin 1)).total_bytes
      ≠ delta cNoData none devstat.bytes DEVSTAT_READ
        + delta cNoData none devstat.bytes DEVSTAT_WRITE
        + delta cNoData none devstat.bytes DEVSTAT_FREE
        + delta cNoData none devstat.bytes DEVSTAT_NO_DATA := by decide

/-- Claim C4 amended: `total_transfers` is the sum of the four per-class
operation-count deltas and `total_duration` is the sum of the four
per-class duration deltas (exactly, durations being exact rationals in the
model), but `total_bytes` is the sum of only the READ, WRITE and FREE byte
deltas — no NO_DATA byte aggregate exists; the count and byte sums are as
stated whenever they do not wrap around u64. -/
theorem totals_are_class_sums (cur : devstat) (prev : Option devstat) (e : F64)
    (hc : delta cur prev devstat.operations DEVSTAT_READ
        + delta cur prev devstat.operations DEVSTAT_WRITE
        + delta cur prev devstat.operations DEVSTAT_NO_DATA
        + delta cur prev devstat.operations DEVSTAT_FREE < U64)
    (hb : delta cur prev devstat.bytes DEVSTAT_READ
        + delta cur prev devstat.bytes DEVSTAT_WRITE
        + delta cur prev devstat.bytes DEVSTAT_FREE < U64) :
    (Statistics.compute cur prev e).total_transfers
      = delta cur prev devstat.operations DEVSTAT_READ
        + delta cur prev devstat.operations DEVSTAT_WRITE
        + delta cur prev devstat.operations DEVSTAT_NO_DATA
        + delta cur prev devstat.operations DEVSTAT_FREE
    ∧ (Statistics.compute cur prev e).total_bytes
      = delta cur prev devstat.bytes DEVSTAT_READ
        + delta cur prev devstat.bytes DEVSTAT_WRITE
        + delta cur prev devstat.bytes DEVSTAT_FREE
    ∧ (Statistics.compute cur prev e).total_duration
      = delta_t cur prev (fun ds => ds.duration DEVSTAT_READ)
        + delta_t cur prev (fun ds => ds.duration DEVSTAT_WRITE)
        + delta_t cur prev (fun ds => ds.duration DEVSTAT_NO_DATA)
        + delta_t cur prev (fun ds => ds.duration DEVSTAT_FREE) :=
  ⟨Nat.mod_eq_of_lt hc, Nat.mod_eq_of_lt hb, rfl⟩

/-- Witness for `totals_are_class_sums`, at the end-to-end scenario
records. -/
theorem totals_are_class_sums_witness :
    (Statistics.compute cEnd (some pEnd) (F64.fin 10)).total_transfers = 500
    ∧ (Statistics.compute cEnd (some pEnd) (F64.fin 10)).total_bytes = 2048000 := by
  have h := totals_are_class_sums cEnd (some pEnd) (F64.fin 10) (by decide) (by decide)
  exact ⟨by rw [h.1]; decide, by rw [h.2.1]; decide⟩

/-- Claim C5: in release-mode (wrapping) semantics `compute` is a total
function: every output counter is a well-typed machine value for every
input, with no hypothesis relating the two records; a mispaired pair whose
previous read count (10) exceeds the current one (5) silently yields the
wrapped, nonsensical-but-well-typed delta 2^64 - 5. -/
theorem compute_is_total_and_well_typed :
    (∀ (cur : devstat) (prev : Option devstat) (e : F64),
      (Statistics.compute cur prev e).wf)
    ∧ (Statistics.compute cSmall (some pBig) (F64.fin 1)).total_transfers_read
        = U64 - 5
    ∧ (Statistics.compute cSmall (some pBig) (F64.fin 1)).wf := by
  have hU64 : 0 < U64 := by decide
  have hU32 : 0 < U32 := by decide
  have hwf : ∀ (cur : devstat) (prev : Option devstat) (e : F64),
      (Statistics.compute cur prev e).wf := by
    intro cur prev e
    have hbytes : (Statistics.compute cur prev e).total_bytes < U64 :=
      Nat.mod_lt _ hU64
    refine ⟨hbytes, Nat.mod_lt _ hU64, Nat.mod_lt _ hU64, Nat.mod_lt _ hU64,
      ?_, ?_, ?_, ?_,
      Nat.mod_lt _ hU64, Nat.mod_lt _ hU64, Nat.mod_lt _ hU64,
      Nat.mod_lt _ hU64, Nat.mod_lt _ hU64, Nat.mod_lt _ hU32⟩
    · exact lt_of_le_of_lt (Nat.div_le_self _ _) hbytes
    · exact lt_of_le_of_lt (Nat.div_le_self _ _) (Nat.mod_lt _ hU64)
    · exact lt_of_le_of_lt (Nat.div_le_self _ _) (Nat.mod_lt _ hU64)
    · exact lt_of_le_of_lt (Nat.div_le_self _ _) (Nat.mod_lt _ hU64)
  exact ⟨hwf, by decide, hwf cSmall (some pBig) (F64.fin 1)⟩

/-- Claim C6: `queue_length` is the wrapping u32 difference of the current
record's start and end counts (equal to the plain difference when
`end_count ≤ start_count` and to `start_count + 2^32 - end_count`
otherwise), and it does not depend on the previous record or the elapsed
time. -/
theorem queue_length_wrapping (cur : devstat) (prev prev2 : Option devstat)
    (e e2 : F64) (h1 : cur.start_count < U32) (h2 : cur.end_count < U32) :
    (Statistics.compute cur prev e).queue_length
      = (if cur.end_count ≤ cur.start_count
         then cur.start_count - cur.end_count
         else cur.start_count + U32 - cur.end_count)
    ∧ (Statistics.compute cur prev e).queue_length
      = (cur.start_count + U32 - cur.end_count) % U32
    ∧ (Statistics.compute cur prev e).queue_length
      = (Statistics.compute cur prev2 e2).queue_length := by
  refine ⟨?_, rfl, rfl⟩
  show wsub32 cur.start_count cur.end_count = _
  unfold wsub32 U32 at *
  split <;> omega

/-- Witness for `queue_length_wrapping`: with 1 started and 3 completed
transactions the wrapped queue length is 2^32 - 2. -/
theorem queue_length_wrapping_witness :
    (Statistics.compute cQueue none (F64.fin 1)).queue_length = 4294967294 := by
  have h := queue_length_wrapping cQueue none none (F64.fin 1) (F64.fin 1)
    (by decide) (by decide)
  rw [h.1]
  decide

/-- Claim C7: computing with no previous record equals computing against
the all-zero record on every stored total and every derived accessor. -/
theorem compute_none_eq_compute_zeroed (cur : devstat) (t : F64) :
    (Statistics.compute cur none t).total_bytes
      = (Statistics.compute cur (some zeroed_record) t).total_bytes
    ∧ (Statistics.compute cur none t).total_bytes_free
      = (Statistics.compute cur (some zeroed_record) t).total_bytes_free
    ∧ (Statistics.compute cur none t).total_bytes_read
      = (Statistics.compute cur (some zeroed_record) t).total_bytes_read
    ∧ (Statistics.compute cur none t).total_bytes_write
      = (Statistics.compute cur (some zeroed_record) t).total_bytes_write
    ∧ (Statistics.compute cur none t).total_blocks
      = (Statistics.compute cur (some zeroed_record) t).total_blocks
    ∧ (Statistics.compute cur none t).total_blocks_free
      = (Statistics.compute cur (some zeroed_record) t).total_blocks_free
    ∧ (Statistics.compute cur none t).total_blocks_read
      = (Statistics.compute cur (some zeroed_record) t).total_blocks_read
    ∧ (Statistics.compute cur none t).total_blocks_write
      = (Statistics.compute cur (some zeroed_record) t).total_blocks_write
    ∧ (Statistics.compute cur none t).total_duration
      = (Statistics.compute cur (some zeroed_record) t).total_duration
    ∧ (Statistics.compute cur none t).total_duration_free
      = (Statistics.compute cur (some zeroed_record) t).total_duration_free
    ∧ (Statistics.compute cur none t).total_duration_other
      = (Statistics.compute cur (some zeroed_record) t).total_duration_other
    ∧ (Statistics.compute cur none t).total_duration_read
      = (Statistics.compute cur (some zeroed_record) t).total_duration_read
    ∧ (Statistics.compute cur none t).total_duration_write
      = (Statistics.compute cur (some zeroed_record) t).total_duration_write
    ∧ (Statistics.compute cur none t).total_transfers
      = (Statistics.compute cur (some zeroed_record) t).total_transfers
    ∧ (Statistics.compute cur none t).total_transfers_free
      = (Statistics.compute cur (some zeroed_record) t).total_transfers_free
    ∧ (Statistics.compute cur none t).total_transfers_other
      = (Statistics.compute cur (some zeroed_record) t).total_transfers_other
    ∧ (Statistics.compute cur none t).total_transfers_read
      = (Statistics.compute cur (some zeroed_record) t).total_transfers_read
    ∧ (Statistics.compute cur none t).total_transfers_write
      = (Statistics.compute cur (some zeroed_record) t).total_transfers_write
    ∧ (Statistics.compute cur none t).blocks_per_second
      = (Statistics.compute cur (some zeroed_record) t).blocks_per_second
    ∧ (Statistics.compute cur none t).blocks_per_second_free
      = (Statistics.compute cur (some zeroed_record) t).blocks_per_second_free
    ∧ (Statistics.compute cur none t).blocks_per_second_read
      = (Statistics.compute cur (some zeroed_record) t).blocks_per_second_read
    ∧ (Statistics.compute cur none t).blocks_per_second_write
      = (Statistics.compute cur (some zeroed_record) t).blocks_per_second_write
    ∧ (Statistics.compute cur none t).kb_per_transfer
      = (Statistics.compute cur (some zeroed_record) t).kb_per_transfer
    ∧ (Statistics.compute cur none t).kb_per_transfer_free
      = (Statistics.compute cur (some zeroed_record) t).kb_per_transfer_free
    ∧ (Statistics.compute cur none t).kb_per_transfer_read
      = (Statistics.compute cur (some zeroed_record) t).kb_per_transfer_read
    ∧ (Statistics.compute cur none t).kb_per_transfer_write
      = (Statistics.compute cur (some zeroed_record) t).kb_per_transfer_write
    ∧ (Statistics.compute cur none t).ms_per_transaction
      = (Statistics.compute cur (some zeroed_record) t).ms_per_transaction
    ∧ (Statistics.compute cur none t).ms_per_transaction_free
      = (Statistics.compute cur (some zeroed_record) t).ms_per_transaction_free
    ∧ (Statistics.compute cur none t).ms_per_transaction_read
      = (Statistics.compute cur (some zeroed_record) t).ms_per_transaction_read
    ∧ (Statistics.compute cur none t).ms_per_transaction_other
      = (Statistics.compute cur (some zeroed_record) t).ms_per_transaction_other
    ∧ (Statistics.compute cur none t).ms_per_transaction_write
      = (Statistics.compute cur (some zeroed_record) t).ms_per_transaction_write
    ∧ (Statistics.compute cur none t).mb_per_second
      = (Statistics.compute cur (some zeroed_record) t).mb_per_second
    ∧ (Statistics.compute cur none t).mb_per_second_free
      = (Statistics.compute cur (some zeroed_record) t).mb_per_second_free
    ∧ (Statistics.compute cur none t).mb_per_second_read
      = (Statistics.compute cur (some zeroed_record) t).mb_per_second_read
    ∧ (Statistics.compute cur none t).mb_per_second_write
      = (Statistics.compute cur (some zeroed_record) t).mb_per_second_write
    ∧ (Statistics.compute cur none t).transfers_per_second
      = (Statistics.compute cur (some zeroed_record) t).transfers_per_second
    ∧ (Statistics.compute cur none t).transfers_per_second_free
      = (Statistics.compute cur (some zeroed_record) t).transfers_per_second_free
    ∧ (Statistics.compute cur none t).transfers_per_second_other
      = (Statistics.compute cur (some zeroed_record) t).transfers_per_second_other
    ∧ (Statistics.compute cur none t).transfers_per_second_read
      = (Statistics.compute cur (some zeroed_record) t).transfers_per_second_read
    ∧ (Statistics.compute cur none t).transfers_per_second_write
      = (Statistics.compute cur (some zeroed_record) t).transfers_per_second_write
    ∧ (Statistics.compute cur none t).busy_time_f
      = (Statistics.compute cur (some zeroed_record) t).busy_time_f
    ∧ (Statistics.compute cur none t).busy_pct
      = (Statistics.compute cur (some zeroed_record) t).busy_pct
    ∧ (Statistics.compute cur none t).queue_length
      = (Statistics.compute cur (some zeroed_record) t).queue_length := by
  and_intros <;> rfl

/-- Claim C8 counterexample: in the end-to-end scenario the read average
latency returned by the engine is 2.0 ms (1 s of duration delta, times
1000, over 500 transfers), not the 2000.0 ms stated by the claim. -/
theorem scenario_latency_is_not_2000 :
    (Statistics.compute cEnd (some pEnd) (F64.fin 10)).ms_per_transaction_read
      ≠ F64.fin 2000 := by
  have hc : (Statistics.compute cEnd (some pEnd) (F64.fin 10)).total_transfers_read
      = 500 := by decide
  have hd : (Statistics.compute cEnd (some pEnd) (F64.fin 10)).total_duration_read
      = 1 := by
    show delta_t cEnd (some pEnd) (fun ds => ds.duration DEVSTAT_READ) = 1
    norm_num [delta_t, delta_t_bt, cEnd, pEnd, DEVSTAT_READ, iwrap64, wsub64,
      U64, BINTIME_SCALE]
  show ms_per_xfer_fn
    (Statistics.compute cEnd (some pEnd) (F64.fin 10)).total_transfers_read
    (Statistics.compute cEnd (some pEnd) (F64.fin 10)).total_duration_read
      ≠ F64.fin 2000
  rw [hc, hd]
  norm_num [ms_per_xfer_fn, F64.mul, F64.div]

/-- Claim C8 amended: in the end-to-end scenario the engine yields read
transfers per second 50.0, read throughput 0.1953125 MB/s, read average
transfer size 4.0 kB, and read average latency 2.0 ms. -/
theorem scenario_end_to_end :
    (Statistics.compute cEnd (some pEnd) (F64.fin 10)).transfers_per_second_read
      = F64.fin 50
    ∧ (Statistics.compute cEnd (some pEnd) (F64.fin 10)).mb_per_second_read
      = F64.fin 0.1953125
    ∧ (Statistics.compute cEnd (some pEnd) (F64.fin 10)).kb_per_transfer_read
      = F64.fin 4
    ∧ (Statistics.compute cEnd (some pEnd) (F64.fin 10)).ms_per_transaction_read
      = F64.fin 2 := by
  have hc : (Statistics.compute cEnd (some pEnd) (F64.fin 10)).total_transfers_read
      = 500 := by decide
  have hb : (Statistics.compute cEnd (some pEnd) (F64.fin 10)).total_bytes
      = 2048000 := by decide
  have hbr : (Statistics.compute cEnd (some pEnd) (F64.fin 10)).total_bytes_read
      = 2048000 := by decide
  have hd : (Statistics.compute cEnd (some pEnd) (F64.fin 10)).total_duration_read
      = 1 := by
    show delta_t cEnd (some pEnd) (fun ds => ds.duration DEVSTAT_READ) = 1
    norm_num [delta_t, delta_t_bt, cEnd, pEnd, DEVSTAT_READ, iwrap64, wsub64,
      U64, BINTIME_SCALE]
  refine ⟨?_, ?_, ?_, ?_⟩
  · show per_sec (F64.fin 10)
      (Statistics.compute cEnd (some pEnd) (F64.fin 10)).total_transfers_read
        = F64.fin 50
    rw [hc]
    norm_num [per_sec, F64.gt, F64.div]
  · show mb_per_sec_fn (F64.fin 10)
      (Statistics.compute cEnd (some pEnd) (F64.fin 10)).total_bytes_read
        = F64.fin 0.1953125
    rw [hbr]
    norm_num [mb_per_sec_fn, F64.gt, F64.div]
  · show kb_per_xfer_fn
      (Statistics.compute cEnd (some pEnd) (F64.fin 10)).total_transfers_read
      (Statistics.compute cEnd (some pEnd) (F64.fin 10)).total_bytes
        = F64.fin 4
    rw [hc, hb]
    norm_num [kb_per_xfer_fn, F64.div]
  · show ms_per_xfer_fn
      (Statistics.compute cEnd (some pEnd) (F64.fin 10)).total_transfers_read
      (Statistics.compute cEnd (some pEnd) (F64.fin 10)).total_duration_read
        = F64.fin 2
    rw [hc, hd]
    norm_num [ms_per_xfer_fn, F64.mul, F64.div]

/-- Claim C9: the lockstep pair iteration is positional: the k-th item
pairs the k-th current record with the k-th previous record when the
latter exists and with `none` otherwise, it ends exactly when the current
snapshot is exhausted (yielding `none` from then on), and a missing
previous snapshot pairs every current record with `none`. -/
theorem pair_iteration_is_positional (cur prev : List devstat) (k : Nat) :
    SnapshotPairIter.nth ⟨⟨cur⟩, some ⟨prev⟩⟩ k
      = (cur[k]?).map (fun c => (c, prev[k]?))
    ∧ SnapshotPairIter.nth ⟨⟨cur⟩, none⟩ k
      = (cur[k]?).map (fun c => (c, (none : Option devstat))) := by
  induction k generalizing cur prev with
  | zero =>
    constructor
    · cases cur <;> cases prev <;>
        simp [SnapshotPairIter.nth, SnapshotPairIter.after, SnapshotPairIter.next,
          snapshot_next]
    · cases cur <;>
        simp [SnapshotPairIter.nth, SnapshotPairIter.after, SnapshotPairIter.next,
          snapshot_next]
  | succ k ih =>
    have hsucc : ∀ (it : SnapshotPairIter), it.nth (k + 1) = (it.next.2).nth k :=
      fun it => rfl
    constructor
    · cases cur with
      | nil =>
        cases prev with
        | nil =>
          rw [hsucc]
          simpa [SnapshotPairIter.next, snapshot_next] using (ih [] []).1
        | cons p ps =>
          rw [hsucc]
          simpa [SnapshotPairIter.next, snapshot_next] using (ih [] ps).1
      | cons c cs =>
        cases prev with
        | nil =>
          rw [hsucc]
          simpa [SnapshotPairIter.next, snapshot_next] using (ih cs []).1
        | cons p ps =>
          rw [hsucc]
          simpa [SnapshotPairIter.next, snapshot_next] using (ih cs ps).1
    · cases cur with
      | nil =>
        rw [hsucc]
        simpa [SnapshotPairIter.next, snapshot_next] using (ih [] []).2
      | cons c cs =>
        rw [hsucc]
        simpa [SnapshotPairIter.next, snapshot_next] using (ih cs []).2

/-- Claim C10: `total_blocks` divides the summed read, write and free byte
deltas once (truncating) by the block denominator (block_size when
positive, else 512), hence is at least the sum of the per-class block
counts; the inequality is strict on a record with 256 read and 256 written
bytes (each class rounds down to 0 blocks while the sum makes one
512-byte block). -/
theorem total_blocks_single_division :
    (∀ (cur : devstat) (prev : Option devstat) (e : F64),
      delta cur prev devstat.bytes DEVSTAT_READ
        + delta cur prev devstat.bytes DEVSTAT_WRITE
        + delta cur prev devstat.bytes DEVSTAT_FREE < U64 →
      (Statistics.compute cur prev e).total_blocks
        = (delta cur prev devstat.bytes DEVSTAT_READ
            + delta cur prev devstat.bytes DEVSTAT_WRITE
            + delta cur prev devstat.bytes DEVSTAT_FREE)
          / (if cur.block_size > 0 then cur.block_size else 512)
      ∧ (Statistics.compute cur prev e).total_blocks_read
          + (Statistics.compute cur prev e).total_blocks_write
          + (Statistics.compute cur prev e).total_blocks_free
        ≤ (Statistics.compute cur prev e).total_blocks)
    ∧ (Statistics.compute cBlocks none (F64.fin 1)).total_blocks_read
        + (Statistics.compute cBlocks none (F64.fin 1)).total_blocks_write
        + (Statistics.compute cBlocks none (F64.fin 1)).total_blocks_free
      < (Statistics.compute cBlocks none (F64.fin 1)).total_blocks := by
  constructor
  · intro cur prev e h
    have hdpos : 0 < (if cur.block_size > 0 then cur.block_size else 512) := by
      split <;> omega
    constructor
    · show ((delta cur prev devstat.bytes DEVSTAT_READ
          + delta cur prev devstat.bytes DEVSTAT_WRITE
          + delta cur prev devstat.bytes DEVSTAT_FREE) % U64)
          / (if cur.block_size > 0 then cur.block_size else 512)
        = (delta cur prev devstat.bytes DEVSTAT_READ
          + delta cur prev devstat.bytes DEVSTAT_WRITE
          + delta cur prev devstat.bytes DEVSTAT_FREE)
          / (if cur.block_size > 0 then cur.block_size else 512)
      rw [Nat.mod_eq_of_lt h]
    · show delta cur prev devstat.bytes DEVSTAT_READ
            / (if cur.block_size > 0 then cur.block_size else 512)
          + delta cur prev devstat.bytes DEVSTAT_WRITE
            / (if cur.block_size > 0 then cur.block_size else 512)
          + delta cur prev devstat.bytes DEVSTAT_FREE
            / (if cur.block_size > 0 then cur.block_size else 512)
        ≤ ((delta cur prev devstat.bytes DEVSTAT_READ
            + delta cur prev devstat.bytes DEVSTAT_WRITE
            + delta cur prev devstat.bytes DEVSTAT_FREE) % U64)
            / (if cur.block_size > 0 then cur.block_size else 512)
      rw [Nat.mod_eq_of_lt h, Nat.le_div_iff_mul_le hdpos]
      calc (delta cur prev devstat.bytes DEVSTAT_READ
              / (if cur.block_size > 0 then cur.block_size else 512)
            + delta cur prev devstat.bytes DEVSTAT_WRITE
              / (if cur.block_size > 0 then cur.block_size else 512)
            + delta cur prev devstat.bytes DEVSTAT_FREE
              / (if cur.block_size > 0 then cur.block_size else 512))
            * (if cur.block_size > 0 then cur.block_size else 512)
          = delta cur prev devstat.bytes DEVSTAT_READ
              / (if cur.block_size > 0 then cur.block_size else 512)
              * (if cur.block_size > 0 then cur.block_size else 512)
            + delta cur prev devstat.bytes DEVSTAT_WRITE
              / (if cur.block_size > 0 then cur.block_size else 512)
              * (if cur.block_size > 0 then cur.block_size else 512)
            + delta cur prev devstat.bytes DEVSTAT_FREE
              / (if cur.block_size > 0 then cur.block_size else 512)
              * (if cur.block_size > 0 then cur.block_size else 512) := by
            ring
        _ ≤ delta cur prev devstat.bytes DEVSTAT_READ
            + delta cur prev devstat.bytes DEVSTAT_WRITE
            + delta cur prev devstat.bytes DEVSTAT_FREE := by
            exact Nat.add_le_add (Nat.add_le_add (Nat.div_mul_le_self _ _)
              (Nat.div_mul_le_self _ _)) (Nat.div_mul_le_self _ _)
  · decide

/-- Witness for `total_blocks_single_division`: on the 256+256-byte record
the single division yields one block. -/
theorem total_blocks_single_division_witness :
    (Statistics.compute cBlocks none (F64.fin 1)).total_blocks = 1 := by
  have h := (total_blocks_single_division.1 cBlocks none (F64.fin 1) (by decide)).1
  rw [h]
  decide

end GStat
